import Mathlib

/-
  Verification of the TopoModelX tutorial notebooks
  (hsn_train.ipynb, template_train.ipynb, convcxn_train.ipynb).

  The notebooks build tiny topological domains, convert their
  incidence/adjacency matrices to torch tensors, stack imported
  message-passing layers under linear read-out heads and run small
  training loops.  We embed the notebook code shallowly: torch tensors
  become shape-and-dtype carrying rational matrices, fallible tensor
  operations return Option, the Python for-loops become structural
  recursion, and PyTorch's module/parameter registration discipline is
  embedded explicitly (a plain Python list attribute is NOT registered).
-/

namespace TopoModelX

/-- Floating point dtypes used by the notebooks. -/
inductive DType where
  | float32
  | float64
deriving DecidableEq

/-- Shallow embedding of a (dense or sparse) torch tensor of rank 2:
the shape metadata, the entries as rationals, and the dtype.
Sparse versus dense layout is irrelevant to every claim, so it is not
recorded. -/
structure Tensor where
  rows : Nat
  cols : Nat
  data : List (List ℚ)
  dtype : DType
deriving DecidableEq

/-- Entry access with the usual out-of-range default. -/
def Tensor.entry (t : Tensor) (i j : Nat) : ℚ :=
  (t.data.getD i []).getD j 0

/-- Build a tensor from a rectangular list of rows. -/
def Tensor.ofLists (dt : DType) (m : List (List ℚ)) : Tensor :=
  ⟨m.length, (m.headD []).length, m, dt⟩

/-- torch.from_numpy applied to a scipy .todense() result: scipy sparse
matrices carry dtype float64, and from_numpy preserves it. -/
def fromNumpyDense (m : List (List ℚ)) : Tensor :=
  Tensor.ofLists DType.float64 m

/-- Tensor.to_sparse changes only the storage layout, which our
embedding does not record. -/
def Tensor.toSparse (t : Tensor) : Tensor := t

/-- Tensor.float casts to float32. -/
def Tensor.toFloat32 (t : Tensor) : Tensor :=
  ⟨t.rows, t.cols, t.data, DType.float32⟩

/-- torch.tensor / torch.Tensor on Python float data yields float32. -/
def torchTensor (m : List (List ℚ)) : Tensor :=
  Tensor.ofLists DType.float32 m

/-- Matrix product; fails (as torch does) unless the inner dimensions
agree.  The result inherits the left operand's dtype. -/
def Tensor.matMul (a b : Tensor) : Option Tensor :=
  if a.cols = b.rows then
    some ⟨a.rows, b.cols,
      (List.range a.rows).map (fun i =>
        (List.range b.cols).map (fun j =>
          ((List.range a.cols).map (fun l => a.entry i l * b.entry l j)).sum)),
      a.dtype⟩
  else none

/-- Elementwise sum; fails unless the shapes agree. -/
def Tensor.add (a b : Tensor) : Option Tensor :=
  if a.rows = b.rows ∧ a.cols = b.cols then
    some ⟨a.rows, a.cols,
      (List.range a.rows).map (fun i =>
        (List.range a.cols).map (fun j => a.entry i j + b.entry i j)),
      a.dtype⟩
  else none

/-- Matrix transpose (scipy .T and torch transpose agree here). -/
def Tensor.transposeT (t : Tensor) : Tensor :=
  ⟨t.cols, t.rows,
    (List.range t.cols).map (fun i =>
      (List.range t.rows).map (fun j => t.entry j i)),
    t.dtype⟩

/-- Mean of column j of a tensor. -/
def Tensor.colMean (t : Tensor) (j : Nat) : ℚ :=
  (((List.range t.rows).map (fun i => t.entry i j)).sum) / (t.rows : ℚ)

/-- torch.mean(x, dim=0): the vector of column means. -/
def Tensor.meanDim0 (t : Tensor) : List ℚ :=
  (List.range t.cols).map t.colMean

/-- Elementwise sum of two vectors; fails unless lengths agree
(torch broadcast of two 1-d tensors of equal length). -/
def vecAdd (u v : List ℚ) : Option (List ℚ) :=
  if u.length = v.length then some (List.zipWith (· + ·) u v) else none

/-- Add a bias row-vector to every row of a matrix (the broadcast in
torch.nn.Linear); fails unless the width matches. -/
def Tensor.addRowBroadcast (t : Tensor) (b : List ℚ) : Option Tensor :=
  if t.cols = b.length then
    some ⟨t.rows, t.cols,
      (List.range t.rows).map (fun i =>
        (List.range t.cols).map (fun j => t.entry i j + b.getD j 0)),
      t.dtype⟩
  else none

/-- torch.nn.Linear(in_features, out_features): weight has shape
(out_features, in_features) and bias has length out_features. -/
structure LinearLayer where
  weight : Tensor
  bias : List ℚ
deriving DecidableEq

/-- Application of a Linear layer: x * weight.T + bias. -/
def LinearLayer.apply (l : LinearLayer) (x : Tensor) : Option Tensor := do
  let y ← x.matMul l.weight.transposeT
  y.addRowBroadcast l.bias

/-- First index attaining the maximum of a vector (torch.argmax on the
notebooks' 1-d prediction vectors). -/
def argmaxIdx (v : List ℚ) : Nat :=
  (v.foldl
    (fun (acc : Nat × Nat × ℚ) x =>
      let (best, idx, bestVal) := acc
      if bestVal < x then (idx, idx + 1, x) else (best, idx + 1, bestVal))
    (0, 0, v.headD 0)).1

/-- Insert into a list sorted by a boolean comparison. -/
def insertLe {α : Type} (le : α → α → Bool) (x : α) : List α → List α
  | [] => [x]
  | y :: ys => if le x y then x :: y :: ys else y :: insertLe le x ys

/-- Insertion sort by a boolean comparison. -/
def sortLe {α : Type} (le : α → α → Bool) : List α → List α
  | [] => []
  | x :: xs => insertLe le x (sortLe le xs)

/-- Lexicographic comparison of vertex pairs. -/
def pairLe (a b : Nat × Nat) : Bool :=
  decide (a.1 < b.1 ∨ (a.1 = b.1 ∧ a.2 ≤ b.2))

/-- Normalize a 2-element vertex list to an ordered pair (min, max). -/
def normEdge (e : List Nat) : Nat × Nat :=
  (min (e.getD 0 0) (e.getD 1 0), max (e.getD 0 0) (e.getD 1 0))

/-- All ordered sub-pairs of a sorted vertex list. -/
def subPairs : List Nat → List (Nat × Nat)
  | [] => []
  | x :: xs => xs.map (fun y => (x, y)) ++ subPairs xs

/-- Modelled from the spec: the TopoNetX domain builder is external to
src/ (spec section 6, Domain Builder API).  A SimplicialComplex built
from a list of simplices contains every face of every listed simplex;
its rank-0 cells are the vertices, sorted. -/
def scNodes (simplices : List (List Nat)) : List Nat :=
  sortLe Nat.ble ((simplices.flatMap id).dedup)

/-- Modelled from the spec: rank-1 cells of a SimplicialComplex — the
listed edges together with the edges of every listed triangle,
enumerated in lexicographic order. -/
def scEdges (simplices : List (List Nat)) : List (Nat × Nat) :=
  sortLe pairLe
    (((simplices.filter (fun s => s.length == 2)).map normEdge ++
      (simplices.filter (fun s => s.length == 3)).flatMap
        (fun s => subPairs (sortLe Nat.ble s))).dedup)

/-- Modelled from the spec: rank-2 cells of a SimplicialComplex, each
stored with sorted vertices, in listed order. -/
def scFaces (simplices : List (List Nat)) : List (List Nat) :=
  ((simplices.filter (fun s => s.length == 3)).map (sortLe Nat.ble)).dedup

/-- Modelled from the spec: the rank-1 incidence (boundary) matrix B1 of
a SimplicialComplex, shape (number of nodes, number of edges), with the
standard orientation: minus one at the smaller endpoint, plus one at the
larger.  Reproduces the matrix printed in hsn_train.ipynb. -/
def scIncidence1 (simplices : List (List Nat)) : List (List ℚ) :=
  (scNodes simplices).map (fun v =>
    (scEdges simplices).map (fun e =>
      if v = e.1 then -1 else if v = e.2 then 1 else 0))

/-- Signed boundary edges of a sorted triangle (a, b, c):
plus (a,b), minus (a,c), plus (b,c). -/
def faceBoundarySigns (f : List Nat) : List ((Nat × Nat) × ℚ) :=
  match f with
  | [a, b, c] => [((a, b), 1), ((a, c), -1), ((b, c), 1)]
  | _ => []

/-- Modelled from the spec: the rank-2 incidence (boundary) matrix B2 of
a SimplicialComplex, shape (number of edges, number of faces).
Reproduces the matrix printed in the template notebook. -/
def scIncidence2 (simplices : List (List Nat)) : List (List ℚ) :=
  (scEdges simplices).map (fun e =>
    (scFaces simplices).map (fun f =>
      (((faceBoundarySigns f).find? (fun p => p.1 == e)).map (fun p => p.2)).getD 0))

/-- Modelled from the spec: the rank-0 (up-)adjacency matrix of a
SimplicialComplex: two distinct nodes are adjacent when they share an
edge.  Reproduces the matrix printed in hsn_train.ipynb. -/
def scAdjacency0 (simplices : List (List Nat)) : List (List ℚ) :=
  (scNodes simplices).map (fun u =>
    (scNodes simplices).map (fun v =>
      if u ≠ v ∧ (min u v, max u v) ∈ scEdges simplices then 1 else 0))

/-- Boundary edges of a polygonal 2-cell given by its vertex cycle,
normalized to ordered pairs. -/
def ccFaceEdges (f : List Nat) : List (Nat × Nat) :=
  (f.zip (f.rotate 1)).map (fun p => (min p.1 p.2, max p.1 p.2))

/-- Modelled from the spec: the TopoNetX CellComplex builder is external
to src/.  Its rank-0 cells are all vertices mentioned by the listed
nodes, edges and faces, sorted. -/
def ccNodes (edgeSet : List (List Nat)) (nodeSet : List Nat)
    (faceSet : List (List Nat)) : List Nat :=
  sortLe Nat.ble ((nodeSet ++ edgeSet.flatMap id ++ faceSet.flatMap id).dedup)

/-- Modelled from the spec: rank-1 cells of a CellComplex — the listed
edges together with the boundary edges of every listed 2-cell (the
builder completes each 2-cell's boundary so the complex is regular, as
the convcxn notebook's recorded output of 8 edges documents). -/
def ccEdges (edgeSet : List (List Nat)) (faceSet : List (List Nat)) :
    List (Nat × Nat) :=
  (edgeSet.map normEdge ++ faceSet.flatMap ccFaceEdges).dedup

/-- Modelled from the spec: the rank-2 incidence matrix B2 of a
CellComplex, shape (number of edges, number of faces), signed by the
traversal direction of each 2-cell's vertex cycle. -/
def ccIncidence2 (edgeSet : List (List Nat)) (faceSet : List (List Nat)) :
    List (List ℚ) :=
  (ccEdges edgeSet faceSet).map (fun e =>
    faceSet.map (fun f =>
      let dir := f.zip (f.rotate 1)
      if (e.1, e.2) ∈ dir then 1 else if (e.2, e.1) ∈ dir then -1 else 0))

/-- Modelled from the spec: the rank-0 adjacency matrix of a
CellComplex: two distinct nodes are adjacent when they share an edge. -/
def ccAdjacency0 (edgeSet : List (List Nat)) (nodeSet : List Nat)
    (faceSet : List (List Nat)) : List (List ℚ) :=
  (ccNodes edgeSet nodeSet faceSet).map (fun u =>
    (ccNodes edgeSet nodeSet faceSet).map (fun v =>
      if u ≠ v ∧ (min u v, max u v) ∈ ccEdges edgeSet faceSet then 1 else 0))

/-- Build a float32 tensor of a given shape from an entry function (the
random initializers of layer parameters are external; only shape and
dtype are determined by the constructors). -/
def mkTensor (r c : Nat) (f : Nat → Nat → ℚ) : Tensor :=
  ⟨r, c, (List.range r).map (fun i => (List.range c).map (f i)), DType.float32⟩

/-- Modelled from the spec: HSNLayer (imported from topomodelx, not
under src/) is a homogeneous message-passing layer on rank 0: it maps
the node signal, using the incidence and adjacency neighborhoods, to an
updated node signal of the same shape (spec sections 4.2 and 6 and the
glossary).  Its learnable parameters are modelled as one
channels-by-channels weight it owns. -/
structure HSNLayerParams where
  weight : Tensor
deriving DecidableEq

/-- Modelled from the spec: the forward computation of HSNLayer —
messages over the rank-0 adjacency plus messages lifted to rank 1 by the
incidence transpose and brought back, then the layer weight. -/
def hsnLayerForward (p : HSNLayerParams)
    (x_0 incidence_1 adjacency_0 : Tensor) : Option Tensor := do
  let viaAdj ← adjacency_0.matMul x_0
  let up ← incidence_1.transposeT.matMul x_0
  let down ← incidence_1.matMul up
  let s ← viaAdj.add down
  s.matMul p.weight

/-- The HSN model of hsn_train.ipynb: a list of HSNLayer instances and a
Linear(channels, 1) read-out. -/
structure HSNModel where
  layers : List HSNLayerParams
  linear : LinearLayer
deriving DecidableEq

/-- The layer for-loop of HSN.forward. -/
def hsnLayerLoop :
    List HSNLayerParams → Tensor → Tensor → Tensor → Option Tensor
  | [], x_0, _, _ => some x_0
  | p :: rest, x_0, incidence_1, adjacency_0 => do
      let y ← hsnLayerForward p x_0 incidence_1 adjacency_0
      hsnLayerLoop rest y incidence_1 adjacency_0

/-- HSN.forward: the layer loop followed by the linear read-out. -/
def HSNModel.forward (m : HSNModel)
    (x_0 incidence_1 adjacency_0 : Tensor) : Option Tensor := do
  let y ← hsnLayerLoop m.layers x_0 incidence_1 adjacency_0
  m.linear.apply y

/-- HSN.__init__: appends n_layers HSNLayer(channels) instances to a
plain list and creates Linear(channels, 1).  It performs no validation
and no tensor operation, hence always succeeds; the Option result
records that construction is the place where a configuration failure
would surface.  The entry functions stand for the external random
initializers of the independent (unshared) parameters. -/
def hsnInit (channels n_layers : Nat) (wVal : Nat → Nat → Nat → ℚ)
    (linWVal : Nat → Nat → ℚ) (linBVal : Nat → ℚ) : Option HSNModel :=
  some
    ⟨(List.range n_layers).map (fun i => ⟨mkTensor channels channels (wVal i)⟩),
     ⟨mkTensor 1 channels linWVal, (List.range 1).map linBVal⟩⟩

/-- Modelled from the spec: TemplateLayer (imported from topomodelx, not
under src/) performs two-step message passing: the face signal is pushed
to the edges by the incidence matrix, transformed to the intermediate
channel width, pulled back to the faces and transformed to the output
width, so a TemplateLayer(c, e, c) maps a faces-by-c signal to a
faces-by-c signal. -/
structure TemplateLayerParams where
  wIn : Tensor
  wOut : Tensor
deriving DecidableEq

/-- Modelled from the spec: the forward computation of TemplateLayer. -/
def templateLayerForward (p : TemplateLayerParams)
    (x_2 incidence_2 : Tensor) : Option Tensor := do
  let toEdges ← incidence_2.matMul x_2
  let mid ← toEdges.matMul p.wIn
  let back ← incidence_2.transposeT.matMul mid
  back.matMul p.wOut

/-- The TemplateNN model of the template notebook: a list of
TemplateLayer instances and a Linear(channels_face, 1) read-out. -/
structure TemplateNNModel where
  layers : List TemplateLayerParams
  linear : LinearLayer
deriving DecidableEq

/-- TemplateNN.__init__: appends n_layers
TemplateLayer(channels_face, channels_edge, channels_face) instances to
a plain list and creates Linear(channels_face, 1); no validation, no
tensor operation, always succeeds. -/
def templateInit (channels_face channels_edge n_layers : Nat)
    (wInVal wOutVal : Nat → Nat → Nat → ℚ) (linWVal : Nat → Nat → ℚ)
    (linBVal : Nat → ℚ) : Option TemplateNNModel :=
  some
    ⟨(List.range n_layers).map (fun i =>
        ⟨mkTensor channels_face channels_edge (wInVal i),
         mkTensor channels_edge channels_face (wOutVal i)⟩),
     ⟨mkTensor 1 channels_face linWVal, (List.range 1).map linBVal⟩⟩

/-- Modelled from the spec: ConvCXNLayer (imported from topomodelx, not
under src/) is a heterogeneous layer: node and edge signals in; node,
edge and face signals out (spec 4.2: node+edge in, node+edge+face out).
The node update uses the rank-0 adjacency, the face output lifts the
edge signal through the faces-by-edges incidence transpose. -/
structure ConvCXNLayerParams where
  w0 : Tensor
  w1 : Tensor
  w2 : Tensor
deriving DecidableEq

/-- Modelled from the spec: the forward computation of ConvCXNLayer. -/
def convCXNLayerForward (p : ConvCXNLayerParams)
    (x_0 x_1 neighborhood_0_to_0 neighborhood_1_to_2 : Tensor) :
    Option (Tensor × Tensor × Tensor) := do
  let m0 ← neighborhood_0_to_0.matMul x_0
  let y0 ← m0.matMul p.w0
  let y1 ← x_1.matMul p.w1
  let lift ← neighborhood_1_to_2.matMul x_1
  let y2 ← lift.matMul p.w2
  pure (y0, y1, y2)

/-- The ConvCXN model of convcxn_train.ipynb: a list of ConvCXNLayer
instances and one Linear read-out per rank. -/
structure ConvCXNModel where
  layers : List ConvCXNLayerParams
  lin_0 : LinearLayer
  lin_1 : LinearLayer
  lin_2 : LinearLayer
deriving DecidableEq

/-- The layer for-loop of ConvCXN.forward.  The face signal x_2 is a
local Python variable first assigned inside the loop body; before the
loop runs it is unbound, embedded here as an Option that starts at
none. -/
def convLayerLoop :
    List ConvCXNLayerParams → Tensor → Tensor → Option Tensor → Tensor →
      Tensor → Option (Tensor × Tensor × Option Tensor)
  | [], x_0, x_1, x_2, _, _ => some (x_0, x_1, x_2)
  | p :: rest, x_0, x_1, _, n00, n12 => do
      let (y0, y1, y2) ← convCXNLayerForward p x_0 x_1 n00 n12
      convLayerLoop rest y0 y1 (some y2) n00 n12

/-- The final line of ConvCXN.forward:
torch.mean(x_2, dim=0) + torch.mean(x_1, dim=0) + torch.mean(x_0, dim=0),
evaluated left to right. -/
def aggregate (x_2 x_1 x_0 : Tensor) : Option (List ℚ) := do
  let a ← vecAdd x_2.meanDim0 x_1.meanDim0
  vecAdd a x_0.meanDim0

/-- ConvCXN.forward: the layer loop, the three per-rank linear
read-outs in source order (reading the unbound x_2 fails when the loop
never ran), then the aggregation. -/
def ConvCXNModel.forward (m : ConvCXNModel)
    (x_0 x_1 neighborhood_0_to_0 neighborhood_1_to_2 : Tensor) :
    Option (List ℚ) := do
  let (f0, f1, f2opt) ←
    convLayerLoop m.layers x_0 x_1 none neighborhood_0_to_0 neighborhood_1_to_2
  let l0 ← m.lin_0.apply f0
  let l1 ← m.lin_1.apply f1
  let f2 ← f2opt
  let l2 ← m.lin_2.apply f2
  aggregate l2 l1 l0

/-- ConvCXN.__init__: appends n_layers
ConvCXNLayer(in_ch_0, in_ch_1, in_ch_2) instances to a plain list and
creates the three Linear(in_ch_r, num_classes) read-outs; no validation,
no tensor operation, always succeeds. -/
def convInit (in_ch_0 in_ch_1 in_ch_2 numClasses n_layers : Nat)
    (w0Val w1Val w2Val : Nat → Nat → Nat → ℚ)
    (linWVal : Nat → Nat → Nat → ℚ) (linBVal : Nat → Nat → ℚ) :
    Option ConvCXNModel :=
  some
    ⟨(List.range n_layers).map (fun i =>
        ⟨mkTensor in_ch_0 in_ch_0 (w0Val i),
         mkTensor in_ch_1 in_ch_1 (w1Val i),
         mkTensor in_ch_1 in_ch_2 (w2Val i)⟩),
     ⟨mkTensor numClasses in_ch_0 (linWVal 0), (List.range numClasses).map (linBVal 0)⟩,
     ⟨mkTensor numClasses in_ch_1 (linWVal 1), (List.range numClasses).map (linBVal 1)⟩,
     ⟨mkTensor numClasses in_ch_2 (linWVal 2), (List.range numClasses).map (linBVal 2)⟩⟩

/-- Channel-width pairs (input width, output width) of the successive
HSN layers: every layer is HSNLayer(channels). -/
def hsnLayerWidthPairs (channels n_layers : Nat) : List (Nat × Nat) :=
  List.replicate n_layers (channels, channels)

/-- Channel-width pairs of the successive TemplateNN layers: every layer
is TemplateLayer(channels_face, channels_edge, channels_face), so each
consumes and produces channels_face on the faces. -/
def templateLayerWidthPairs (channels_face n_layers : Nat) :
    List (Nat × Nat) :=
  List.replicate n_layers (channels_face, channels_face)

/-- Channel-width pairs of the node-signal chain through the ConvCXN
layers (each layer maps in_ch_0 to in_ch_0 on rank 0). -/
def convWidthPairs0 (in_ch_0 n_layers : Nat) : List (Nat × Nat) :=
  List.replicate n_layers (in_ch_0, in_ch_0)

/-- Channel-width pairs of the edge-signal chain through the ConvCXN
layers (each layer maps in_ch_1 to in_ch_1 on rank 1). -/
def convWidthPairs1 (in_ch_1 n_layers : Nat) : List (Nat × Nat) :=
  List.replicate n_layers (in_ch_1, in_ch_1)

/-- Consecutive layer channel widths match: each layer's output width
equals the next layer's input width. -/
def consecutiveMatch : List (Nat × Nat) → Bool
  | [] => true
  | [_] => true
  | a :: b :: rest => (a.2 == b.1) && consecutiveMatch (b :: rest)

/-- Modelled from the spec: torch.nn.functional
binary_cross_entropy_with_logits belongs to the external tensor
framework; only its definedness condition is modelled — it is defined
when prediction and target have the same shape.  Its transcendental
value is external and irrelevant to every claim. -/
def bceWithLogitsOk (pred target : Tensor) : Option Unit :=
  if pred.rows = target.rows ∧ pred.cols = target.cols then some () else none

/-- Modelled from the spec: torch.nn.CrossEntropyLoss on a 1-d logit
vector and a class index belongs to the external tensor framework; only
its definedness condition is modelled — the class index must be within
range.  Its transcendental value is external. -/
def crossEntropyOk (logits : List ℚ) (y : Nat) : Option Unit :=
  if y < logits.length then some () else none

/-- Guard for a Python division (accuracy = correct / num_samples):
fails exactly when the denominator is zero. -/
def divGuard (n : Nat) : Option Unit :=
  if n = 0 then none else some ()

/-- A forward call on the HSN module: the method assigns no attribute
of self, so the module state is returned unchanged next to the value. -/
def HSNModel.forwardCall (m : HSNModel)
    (x_0 incidence_1 adjacency_0 : Tensor) : Option Tensor × HSNModel :=
  (m.forward x_0 incidence_1 adjacency_0, m)

/-- A forward call on the ConvCXN module: the method assigns no
attribute of self, so the module state is returned unchanged next to
the value. -/
def ConvCXNModel.forwardCall (m : ConvCXNModel)
    (x_0 x_1 neighborhood_0_to_0 neighborhood_1_to_2 : Tensor) :
    Option (List ℚ) × ConvCXNModel :=
  (m.forward x_0 x_1 neighborhood_0_to_0 neighborhood_1_to_2, m)

/-- The HSN training loop of hsn_train.ipynb: per epoch, zero the
gradients, run forward, compute the loss against the node labels, run
backward and step the optimizer.  Backward and the Adam step belong to
the external framework; their net effect on the module is an update
function.  The per-epoch predictions are collected so that their shape
can be inspected. -/
def hsnTrainLoop (update : HSNModel → HSNModel)
    (x_0 incidence_1 adjacency_0 labels : Tensor) :
    Nat → HSNModel → Option (List Tensor × HSNModel)
  | 0, m => some ([], m)
  | Nat.succ n, m => do
      let pred ← m.forward x_0 incidence_1 adjacency_0
      let _ ← bceWithLogitsOk pred labels
      let (outs, final) ← hsnTrainLoop update x_0 incidence_1 adjacency_0 labels n (update m)
      pure (pred :: outs, final)

/-- One data sample of the convcxn notebook: a node signal, an edge
signal and a class label. -/
structure ConvSample where
  x_0 : Tensor
  x_1 : Tensor
  label : Nat
deriving DecidableEq

/-- Counters touched by the convcxn per-sample training loop body. -/
structure EpochStats where
  epochLossLen : Nat
  num_samples : Nat
  correct : Nat
  optSteps : Nat
deriving DecidableEq

/-- The per-sample loop of one convcxn training epoch: zero gradients,
forward on the float-cast signals and neighborhoods, loss, correctness
count, sample count, backward, optimizer step, loss append — in source
order.  The optimizer step's net effect on the module is the update
function. -/
def convTrainSamples (update : ConvCXNModel → ConvCXNModel)
    (n00 n12 : Tensor) :
    List ConvSample → ConvCXNModel → EpochStats →
      Option (ConvCXNModel × EpochStats)
  | [], m, st => some (m, st)
  | s :: rest, m, st => do
      let y_hat ← m.forward s.x_0.toFloat32 s.x_1.toFloat32
        n00.toFloat32 n12.toFloat32
      let _ ← crossEntropyOk y_hat s.label
      let c : Nat := if argmaxIdx y_hat = s.label then 1 else 0
      convTrainSamples update n00 n12 rest (update m)
        ⟨st.epochLossLen + 1, st.num_samples + 1, st.correct + c, st.optSteps + 1⟩

/-- The convcxn test loop (inside torch.no_grad): per held-out sample,
forward on the raw (not float-cast) signals, then the correctness and
sample counters; no loss, no backward, no optimizer step.  The module
state is threaded through each forward call. -/
def convTestSamples (n00 n12 : Tensor) :
    List ConvSample → ConvCXNModel → Nat × Nat →
      Option ((Nat × Nat) × ConvCXNModel)
  | [], m, acc => some (acc, m)
  | s :: rest, m, acc => do
      let (yOpt, m') := m.forwardCall s.x_0 s.x_1 n00 n12
      let y_hat ← yOpt
      convTestSamples n00 n12 rest m'
        (acc.1 + (if argmaxIdx y_hat = s.label then 1 else 0), acc.2 + 1)

/-- Console lines produced by the convcxn run: one loss/accuracy line
per epoch and one test-accuracy line per evaluation. -/
structure RunStats where
  trainLines : Nat
  testLines : Nat
deriving DecidableEq

/-- The full convcxn run: for epoch_i in range(1, num_epochs + 1), one
training epoch, the train accuracy (a division that needs a nonempty
epoch), one printed epoch line, and — when epoch_i is divisible by
test_interval — one test pass with its accuracy division and printed
test line.  Recursion is on the number of remaining epochs. -/
def convRun (update : ConvCXNModel → ConvCXNModel) (n00 n12 : Tensor)
    (trainData testData : List ConvSample) (test_interval : Nat) :
    Nat → Nat → ConvCXNModel → RunStats → Option (ConvCXNModel × RunStats)
  | 0, _, m, st => some (m, st)
  | Nat.succ k, epoch_i, m, st => do
      let (m1, est) ← convTrainSamples update n00 n12 trainData m ⟨0, 0, 0, 0⟩
      let _ ← divGuard est.num_samples
      let st1 : RunStats := ⟨st.trainLines + 1, st.testLines⟩
      if epoch_i % test_interval = 0 then do
        let (acc, m2) ← convTestSamples n00 n12 testData m1 (0, 0)
        let _ ← divGuard acc.2
        convRun update n00 n12 trainData testData test_interval k
          (epoch_i + 1) m2 ⟨st1.trainLines, st1.testLines + 1⟩
      else
        convRun update n00 n12 trainData testData test_interval k
          (epoch_i + 1) m1 st1

/-- PyTorch attribute values as nn.Module.setattr sees them: a
Parameter is registered in the module's parameter dict, a Module (or
ModuleList) is registered in the module dict, but a plain Python list
is stored in the plain instance dict and is NOT registered. -/
inductive PyAttr where
  | param (id : Nat)
  | mod (children : List PyAttr)
  | pylist (children : List PyAttr)

mutual

/-- nn.Module.parameters(): the parameters registered on the module
itself and, recursively, on its registered submodules.  Attributes
holding a plain Python list are invisible to this traversal. -/
def PyAttr.params : PyAttr → List Nat
  | .param i => [i]
  | .mod cs => PyAttr.paramsOfList cs
  | .pylist _ => []

/-- Parameters of a list of registered attributes. -/
def PyAttr.paramsOfList : List PyAttr → List Nat
  | [] => []
  | a :: rest => a.params ++ PyAttr.paramsOfList rest

end

/-- A torch.nn.Linear module: weight and bias parameters. -/
def linearPy (wId bId : Nat) : PyAttr := .mod [.param wId, .param bId]

/-- Modelled from the spec: each HSNLayer instance owns its own
learnable parameters (spec section 3, Layer Stack); two parameter
tensors per layer, with ids distinct across layers. -/
def hsnLayerPy (i : Nat) : PyAttr :=
  .mod [.param (100 + 2 * i), .param (101 + 2 * i)]

/-- The HSN module as built by HSN.init: self.linear is a registered
Linear submodule; self.layers is a plain Python list of the layer
modules. -/
def hsnPy (n_layers : Nat) : PyAttr :=
  .mod [.pylist ((List.range n_layers).map hsnLayerPy), linearPy 0 1]

/-- Modelled from the spec: each TemplateLayer instance owns its own
learnable parameters; two parameter tensors per layer. -/
def templateLayerPy (i : Nat) : PyAttr :=
  .mod [.param (200 + 2 * i), .param (201 + 2 * i)]

/-- The TemplateNN module as built by TemplateNN.init: self.layers is a
plain Python list; self.linear is a registered Linear submodule. -/
def templatePy (n_layers : Nat) : PyAttr :=
  .mod [.pylist ((List.range n_layers).map templateLayerPy), linearPy 0 1]

/-- Modelled from the spec: each ConvCXNLayer instance owns its own
learnable parameters; three parameter tensors per layer. -/
def convLayerPy (i : Nat) : PyAttr :=
  .mod [.param (300 + 3 * i), .param (301 + 3 * i), .param (302 + 3 * i)]

/-- The ConvCXN module as built by ConvCXN.init: self.layers is a plain
Python list; lin_0, lin_1, lin_2 are registered Linear submodules. -/
def convPy (n_layers : Nat) : PyAttr :=
  .mod [.pylist ((List.range n_layers).map convLayerPy),
    linearPy 0 1, linearPy 2 3, linearPy 4 5]

end TopoModelX

namespace TopoModelX.HsnNb

/-- The edge set of hsn_train.ipynb. -/
def edge_set : List (List Nat) := [[1, 2], [1, 3]]

/-- The nodes of the HSN domain. -/
def nodes : List Nat := scNodes edge_set

/-- The edges of the HSN domain. -/
def edges : List (Nat × Nat) := scEdges edge_set

/-- incidence_1 after torch.from_numpy(incidence_1.todense()).to_sparse():
the float64 dtype of the scipy matrix is retained (no .float() cast). -/
def incidence_1 : Tensor := (fromNumpyDense (scIncidence1 edge_set)).toSparse

/-- adjacency_0 after torch.from_numpy(...).to_sparse(): float64. -/
def adjacency_0 : Tensor := (fromNumpyDense (scAdjacency0 edge_set)).toSparse

/-- The node input signal, a float32 torch tensor. -/
def x_nodes : Tensor := torchTensor [[1, 1], [2, 2], [1, 1]]

/-- channels_nodes = x_nodes.shape[-1]. -/
def channels_nodes : Nat := x_nodes.cols

/-- The ground-truth node labels, shape (3, 1), float32. -/
def nodes_gt_labels : Tensor := torchTensor [[0], [1], [1]]

end TopoModelX.HsnNb

namespace TopoModelX.TemplateNb

/-- The simplex list of the template notebook: edge_set + face_set. -/
def simplices : List (List Nat) := [[1, 2], [1, 3], [2, 3, 4], [2, 4, 5]]

/-- incidence_2_torch after torch.from_numpy(...).to_sparse(): the
float64 dtype of the scipy matrix is retained (no .float() cast). -/
def incidence_2_torch : Tensor := (fromNumpyDense (scIncidence2 simplices)).toSparse

/-- The face input signal, a float32 torch tensor of shape (2, 2). -/
def x_2 : Tensor := torchTensor [[1, 1], [2, 2]]

/-- channels_face = x_2.shape[1]. -/
def channels_face : Nat := x_2.cols

/-- channels_edge as set in the notebook. -/
def channels_edge : Nat := 4

end TopoModelX.TemplateNb

namespace TopoModelX.ConvNb

/-- The six listed edges of convcxn_train.ipynb. -/
def edge_set : List (List Nat) :=
  [[1, 2], [1, 3], [2, 4], [3, 4], [4, 5], [1, 6]]

/-- The six listed nodes. -/
def node_set : List Nat := [1, 2, 3, 4, 5, 6]

/-- The single listed face. -/
def face_set : List (List Nat) := [[1, 2, 3, 4]]

/-- The nodes of the cell complex. -/
def nodes : List Nat := ccNodes edge_set node_set face_set

/-- The edges of the cell complex (the listed edges plus the boundary
edges the face contributes). -/
def edges : List (Nat × Nat) := ccEdges edge_set face_set

/-- incidence_2_t: the transposed rank-2 incidence matrix, converted by
torch.from_numpy(...).to_sparse().float() — cast to float32. -/
def incidence_2_t : Tensor :=
  (fromNumpyDense (ccIncidence2 edge_set face_set)).transposeT.toSparse.toFloat32

/-- adjacency_0 after torch.from_numpy(...).to_sparse().float(). -/
def adjacency_0 : Tensor :=
  (fromNumpyDense (ccAdjacency0 edge_set node_set face_set)).toSparse.toFloat32

/-- Node feature count of the synthetic data. -/
def num_features_0 : Nat := 4

/-- Edge feature count of the synthetic data. -/
def num_features_1 : Nat := 5

/-- in_ch_0 = num_features_0. -/
def in_ch_0 : Nat := num_features_0

/-- in_ch_1 = num_features_1. -/
def in_ch_1 : Nat := num_features_1

/-- in_ch_2 as set in the notebook. -/
def in_ch_2 : Nat := 5

/-- A sample is shaped like the synthetic data:
torch.Tensor(np.random.rand(6, 4)) nodes, (8, 5) edges, a binary label. -/
def sampleOk (s : ConvSample) : Bool :=
  s.x_0.rows == nodes.length && s.x_0.cols == num_features_0 &&
  s.x_1.rows == edges.length && s.x_1.cols == num_features_1 &&
  s.label < 2

end TopoModelX.ConvNb

namespace TopoModelX

/-- Shape constraint on an HSN model: n_layers layers whose weights are
channels by channels, and a Linear(channels, 1) read-out. -/
def hsnModelOk (channels n_layers : Nat) (m : HSNModel) : Prop :=
  m.layers.length = n_layers ∧
  (∀ p ∈ m.layers, p.weight.rows = channels ∧ p.weight.cols = channels) ∧
  m.linear.weight.rows = 1 ∧ m.linear.weight.cols = channels ∧
  m.linear.bias.length = 1

/-- Shape constraint on a ConvCXN model: a nonempty layer stack with
weights shaped by the channel widths, and Linear(c_r, K) read-outs. -/
def convModelOk (c0 c1 c2 K : Nat) (m : ConvCXNModel) : Prop :=
  m.layers ≠ [] ∧
  (∀ p ∈ m.layers,
    p.w0.rows = c0 ∧ p.w0.cols = c0 ∧ p.w1.rows = c1 ∧ p.w1.cols = c1 ∧
    p.w2.rows = c1 ∧ p.w2.cols = c2) ∧
  m.lin_0.weight.rows = K ∧ m.lin_0.weight.cols = c0 ∧ m.lin_0.bias.length = K ∧
  m.lin_1.weight.rows = K ∧ m.lin_1.weight.cols = c1 ∧ m.lin_1.bias.length = K ∧
  m.lin_2.weight.rows = K ∧ m.lin_2.weight.cols = c2 ∧ m.lin_2.bias.length = K

instance (channels n_layers : Nat) (m : HSNModel) :
    Decidable (hsnModelOk channels n_layers m) := by
  unfold hsnModelOk
  infer_instance

instance (c0 c1 c2 K : Nat) (m : ConvCXNModel) :
    Decidable (convModelOk c0 c1 c2 K m) := by
  unfold convModelOk
  infer_instance

/-- Count of epochs with index divisible by the test interval, among k
epochs starting at index start (the epochs where the convcxn loop
prints a test-accuracy line). -/
def testEvalCount (test_interval : Nat) : Nat → Nat → Nat
  | _, 0 => 0
  | start, Nat.succ k =>
      (if start % test_interval = 0 then 1 else 0) +
        testEvalCount test_interval (start + 1) k

/-- All-zero HSN model with two layers of channel width 2, used to
evaluate the development on concrete inputs. -/
def hsnZeroModel : HSNModel :=
  (hsnInit 2 2 (fun _ _ _ => 0) (fun _ _ => 0) (fun _ => 0)).getD
    ⟨[], ⟨mkTensor 1 2 (fun _ _ => 0), [0]⟩⟩

/-- All-zero ConvCXN model with two layers and the notebook's channel
widths, used to evaluate the development on concrete inputs. -/
def convZeroModel : ConvCXNModel :=
  (convInit 4 5 5 2 2 (fun _ _ _ => 0) (fun _ _ _ => 0) (fun _ _ _ => 0)
    (fun _ _ _ => 0) (fun _ _ => 0)).getD
    ⟨[⟨mkTensor 4 4 (fun _ _ => 0), mkTensor 5 5 (fun _ _ => 0),
       mkTensor 5 5 (fun _ _ => 0)⟩],
     ⟨mkTensor 2 4 (fun _ _ => 0), [0, 0]⟩,
     ⟨mkTensor 2 5 (fun _ _ => 0), [0, 0]⟩,
     ⟨mkTensor 2 5 (fun _ _ => 0), [0, 0]⟩⟩

/-- ConvCXN model built with n_layers = 0 (an empty layer stack). -/
def convZeroLayersModel : ConvCXNModel :=
  (convInit 4 5 5 2 0 (fun _ _ _ => 0) (fun _ _ _ => 0) (fun _ _ _ => 0)
    (fun _ _ _ => 0) (fun _ _ => 0)).getD
    ⟨[], ⟨mkTensor 2 4 (fun _ _ => 0), [0, 0]⟩,
     ⟨mkTensor 2 5 (fun _ _ => 0), [0, 0]⟩,
     ⟨mkTensor 2 5 (fun _ _ => 0), [0, 0]⟩⟩

/-- All-zero synthetic sample shaped like the convcxn training data. -/
def convZeroSample : ConvSample :=
  ⟨mkTensor 6 4 (fun _ _ => 0), mkTensor 8 5 (fun _ _ => 0), 0⟩

theorem matMul_shape {a b : Tensor} (h : a.cols = b.rows) :
    ∃ c, a.matMul b = some c ∧ c.rows = a.rows ∧ c.cols = b.cols ∧
      c.dtype = a.dtype := by
  unfold Tensor.matMul
  rw [if_pos h]
  exact ⟨_, rfl, rfl, rfl, rfl⟩

theorem add_shape {a b : Tensor} (hr : a.rows = b.rows) (hc : a.cols = b.cols) :
    ∃ c, a.add b = some c ∧ c.rows = a.rows ∧ c.cols = a.cols := by
  unfold Tensor.add
  rw [if_pos ⟨hr, hc⟩]
  exact ⟨_, rfl, rfl, rfl⟩

theorem addRowBroadcast_shape {a : Tensor} {b : List ℚ}
    (h : a.cols = b.length) :
    ∃ c, a.addRowBroadcast b = some c ∧ c.rows = a.rows ∧ c.cols = a.cols := by
  unfold Tensor.addRowBroadcast
  rw [if_pos h]
  exact ⟨_, rfl, rfl, rfl⟩

@[simp] theorem transposeT_rows (t : Tensor) : t.transposeT.rows = t.cols := rfl

@[simp] theorem transposeT_cols (t : Tensor) : t.transposeT.cols = t.rows := rfl

@[simp] theorem toFloat32_rows (t : Tensor) : t.toFloat32.rows = t.rows := rfl

@[simp] theorem toFloat32_cols (t : Tensor) : t.toFloat32.cols = t.cols := rfl

theorem linearApply_shape {l : LinearLayer} {x : Tensor}
    (hw : l.weight.cols = x.cols) (hb : l.bias.length = l.weight.rows) :
    ∃ y, l.apply x = some y ∧ y.rows = x.rows ∧ y.cols = l.weight.rows := by
  obtain ⟨y, hy, hyr, hyc, hyd⟩ :=
    matMul_shape (a := x) (b := l.weight.transposeT) (by simp [hw])
  obtain ⟨z, hz, hzr, hzc⟩ :=
    addRowBroadcast_shape (a := y) (b := l.bias) (by rw [hyc, hb]; rfl)
  exact ⟨z, by simp [LinearLayer.apply, hy, hz], by rw [hzr, hyr],
    by rw [hzc, hyc]; rfl⟩

theorem hsnLayerForward_shape {n e c : Nat} {p : HSNLayerParams}
    {x inc adj : Tensor}
    (hx : x.rows = n ∧ x.cols = c) (hi : inc.rows = n ∧ inc.cols = e)
    (ha : adj.rows = n ∧ adj.cols = n)
    (hw : p.weight.rows = c ∧ p.weight.cols = c) :
    ∃ y, hsnLayerForward p x inc adj = some y ∧ y.rows = n ∧ y.cols = c := by
  obtain ⟨m1, hm1, hm1r, hm1c, hm1d⟩ :=
    matMul_shape (a := adj) (b := x) (by rw [ha.2, hx.1])
  obtain ⟨up, hup, hupr, hupc, hupd⟩ :=
    matMul_shape (a := inc.transposeT) (b := x) (by simp [hi.1, hx.1])
  obtain ⟨dn, hdn, hdnr, hdnc, hdnd⟩ :=
    matMul_shape (a := inc) (b := up) (by rw [hi.2, hupr]; simp [hi.2])
  obtain ⟨s, hs, hsr, hsc⟩ :=
    add_shape (a := m1) (b := dn) (by rw [hm1r, hdnr, ha.1, hi.1])
      (by rw [hm1c, hdnc, hupc])
  obtain ⟨y, hy, hyr, hyc, hyd⟩ :=
    matMul_shape (a := s) (b := p.weight)
      (by rw [hsc, hm1c, hx.2, hw.1])
  refine ⟨y, ?_, ?_, ?_⟩
  · simp [hsnLayerForward, hm1, hup, hdn, hs, hy]
  · rw [hyr, hsr, hm1r, ha.1]
  · rw [hyc, hw.2]

theorem hsnLayerLoop_shape {n e c : Nat} {inc adj : Tensor}
    (hi : inc.rows = n ∧ inc.cols = e) (ha : adj.rows = n ∧ adj.cols = n) :
    ∀ (layers : List HSNLayerParams) (x : Tensor),
      (∀ p ∈ layers, p.weight.rows = c ∧ p.weight.cols = c) →
      x.rows = n → x.cols = c →
      ∃ y, hsnLayerLoop layers x inc adj = some y ∧ y.rows = n ∧ y.cols = c
  | [], x, _, hxr, hxc => ⟨x, rfl, hxr, hxc⟩
  | p :: rest, x, hl, hxr, hxc => by
      obtain ⟨y, hy, hyr, hyc⟩ :=
        hsnLayerForward_shape (p := p) ⟨hxr, hxc⟩ hi ha
          (hl p (List.mem_cons_self p rest))
      obtain ⟨z, hz, hzr, hzc⟩ :=
        hsnLayerLoop_shape hi ha rest y
          (fun q hq => hl q (List.mem_cons_of_mem p hq)) hyr hyc
      exact ⟨z, by simp [hsnLayerLoop, hy, hz], hzr, hzc⟩

theorem hsnForward_shape {n e c n_layers : Nat} {m : HSNModel}
    {x inc adj : Tensor}
    (hm : hsnModelOk c n_layers m)
    (hx : x.rows = n ∧ x.cols = c) (hi : inc.rows = n ∧ inc.cols = e)
    (ha : adj.rows = n ∧ adj.cols = n) :
    ∃ y, m.forward x inc adj = some y ∧ y.rows = n ∧ y.cols = 1 := by
  obtain ⟨z, hz, hzr, hzc⟩ :=
    hsnLayerLoop_shape (c := c) hi ha m.layers x hm.2.1 hx.1 hx.2
  obtain ⟨y, hy, hyr, hyc⟩ :=
    linearApply_shape (l := m.linear) (x := z)
      (by rw [hm.2.2.2.1, hzc]) (by rw [hm.2.2.2.2, hm.2.2.1])
  exact ⟨y, by simp [HSNModel.forward, hz, hy], by rw [hyr, hzr],
    by rw [hyc, hm.2.2.1]⟩

theorem hsnTrainLoop_shape {n e c n_layers : Nat} {update : HSNModel → HSNModel}
    {x inc adj labels : Tensor}
    (hupd : ∀ q, hsnModelOk c n_layers q → hsnModelOk c n_layers (update q))
    (hx : x.rows = n ∧ x.cols = c) (hi : inc.rows = n ∧ inc.cols = e)
    (ha : adj.rows = n ∧ adj.cols = n)
    (hlab : labels.rows = n ∧ labels.cols = 1) :
    ∀ (epochs : Nat) (m : HSNModel), hsnModelOk c n_layers m →
      ∃ outs final,
        hsnTrainLoop update x inc adj labels epochs m = some (outs, final) ∧
        outs.length = epochs ∧ ∀ t ∈ outs, t.rows = n ∧ t.cols = 1
  | 0, m, _ => ⟨[], m, rfl, rfl, by simp⟩
  | Nat.succ k, m, hm => by
      obtain ⟨y, hy, hyr, hyc⟩ := hsnForward_shape hm hx hi ha
      obtain ⟨outs, fin, hrec, hlen, hall⟩ :=
        hsnTrainLoop_shape hupd hx hi ha hlab k (update m) (hupd m hm)
      refine ⟨y :: outs, fin, ?_, by simp [hlen], ?_⟩
      · simp [hsnTrainLoop, hy, hrec, bceWithLogitsOk, hyr, hyc,
          hlab.1, hlab.2]
      · intro t ht
        rcases List.mem_cons.mp ht with h | h
        · exact h ▸ ⟨hyr, hyc⟩
        · exact hall t h

theorem convLayerForward_shape {c0 c1 c2 n0 n1 n2 : Nat}
    {p : ConvCXNLayerParams} {x0 x1 n00 n12 : Tensor}
    (hp : p.w0.rows = c0 ∧ p.w0.cols = c0 ∧ p.w1.rows = c1 ∧
      p.w1.cols = c1 ∧ p.w2.rows = c1 ∧ p.w2.cols = c2)
    (hx0 : x0.rows = n0 ∧ x0.cols = c0) (hx1 : x1.rows = n1 ∧ x1.cols = c1)
    (hn00 : n00.rows = n0 ∧ n00.cols = n0)
    (hn12 : n12.rows = n2 ∧ n12.cols = n1) :
    ∃ y0 y1 y2, convCXNLayerForward p x0 x1 n00 n12 = some (y0, y1, y2) ∧
      y0.rows = n0 ∧ y0.cols = c0 ∧ y1.rows = n1 ∧ y1.cols = c1 ∧
      y2.rows = n2 ∧ y2.cols = c2 := by
  obtain ⟨m0, hm0, hm0r, hm0c, _⟩ :=
    matMul_shape (a := n00) (b := x0) (by rw [hn00.2, hx0.1])
  obtain ⟨y0, hy0, hy0r, hy0c, _⟩ :=
    matMul_shape (a := m0) (b := p.w0) (by rw [hm0c, hx0.2, hp.1])
  obtain ⟨y1, hy1, hy1r, hy1c, _⟩ :=
    matMul_shape (a := x1) (b := p.w1) (by rw [hx1.2, hp.2.2.1])
  obtain ⟨lift, hlift, hliftr, hliftc, _⟩ :=
    matMul_shape (a := n12) (b := x1) (by rw [hn12.2, hx1.1])
  obtain ⟨y2, hy2, hy2r, hy2c, _⟩ :=
    matMul_shape (a := lift) (b := p.w2) (by rw [hliftc, hx1.2, hp.2.2.2.2.1])
  refine ⟨y0, y1, y2, ?_, ?_, ?_, ?_, ?_, ?_, ?_⟩
  · simp [convCXNLayerForward, hm0, hy0, hy1, hlift, hy2]
  · rw [hy0r, hm0r, hn00.1]
  · rw [hy0c, hp.2.1]
  · rw [hy1r, hx1.1]
  · rw [hy1c, hp.2.2.2.1]
  · rw [hy2r, hliftr, hn12.1]
  · rw [hy2c, hp.2.2.2.2.2]

theorem convLayerLoop_shape {c0 c1 c2 n0 n1 n2 : Nat} {n00 n12 : Tensor}
    (hn00 : n00.rows = n0 ∧ n00.cols = n0)
    (hn12 : n12.rows = n2 ∧ n12.cols = n1) :
    ∀ (layers : List ConvCXNLayerParams) (x0 x1 : Tensor)
      (acc : Option Tensor),
      (∀ p ∈ layers,
        p.w0.rows = c0 ∧ p.w0.cols = c0 ∧ p.w1.rows = c1 ∧
          p.w1.cols = c1 ∧ p.w2.rows = c1 ∧ p.w2.cols = c2) →
      x0.rows = n0 → x0.cols = c0 → x1.rows = n1 → x1.cols = c1 →
      (∀ t, acc = some t → t.rows = n2 ∧ t.cols = c2) →
      ∃ f0 f1 f2o,
        convLayerLoop layers x0 x1 acc n00 n12 = some (f0, f1, f2o) ∧
        f0.rows = n0 ∧ f0.cols = c0 ∧ f1.rows = n1 ∧ f1.cols = c1 ∧
        (∀ t, f2o = some t → t.rows = n2 ∧ t.cols = c2) ∧
        (layers ≠ [] → f2o.isSome = true) ∧
        (acc.isSome = true → f2o.isSome = true)
  | [], x0, x1, acc, _, hx0r, hx0c, hx1r, hx1c, hacc =>
      ⟨x0, x1, acc, rfl, hx0r, hx0c, hx1r, hx1c, hacc,
        fun h => absurd rfl h, fun h => h⟩
  | p :: rest, x0, x1, acc, hl, hx0r, hx0c, hx1r, hx1c, _ => by
      obtain ⟨y0, y1, y2, hstep, hy0r, hy0c, hy1r, hy1c, hy2r, hy2c⟩ :=
        convLayerForward_shape (p := p)
          (hl p (List.mem_cons_self p rest)) ⟨hx0r, hx0c⟩ ⟨hx1r, hx1c⟩
          hn00 hn12
      obtain ⟨f0, f1, f2o, hrec, hf0r, hf0c, hf1r, hf1c, hf2, _, hpass⟩ :=
        convLayerLoop_shape hn00 hn12 rest y0 y1 (some y2)
          (fun q hq => hl q (List.mem_cons_of_mem p hq))
          hy0r hy0c hy1r hy1c
          (fun t ht => by cases ht; exact ⟨hy2r, hy2c⟩)
      exact ⟨f0, f1, f2o, by simp [convLayerLoop, hstep, hrec],
        hf0r, hf0c, hf1r, hf1c, hf2,
        fun _ => hpass rfl, fun _ => hpass rfl⟩

theorem aggregate_shape {K : Nat} {l2 l1 l0 : Tensor}
    (h2 : l2.cols = K) (h1 : l1.cols = K) (h0 : l0.cols = K) :
    ∃ v, aggregate l2 l1 l0 = some v ∧ v.length = K ∧
      ∀ j, j < K →
        v.getD j 0 = l2.colMean j + l1.colMean j + l0.colMean j := by
  have hmap : ∀ (f g : Nat → ℚ),
      List.zipWith (· + ·) ((List.range K).map f) ((List.range K).map g) =
        (List.range K).map (fun j => f j + g j) := by
    intro f g
    rw [List.zipWith_map, List.zipWith_same]
  have hm2 : l2.meanDim0 = (List.range K).map l2.colMean := by
    rw [Tensor.meanDim0, h2]
  have hm1 : l1.meanDim0 = (List.range K).map l1.colMean := by
    rw [Tensor.meanDim0, h1]
  have hm0 : l0.meanDim0 = (List.range K).map l0.colMean := by
    rw [Tensor.meanDim0, h0]
  have hstep1 : vecAdd l2.meanDim0 l1.meanDim0 =
      some ((List.range K).map (fun j => l2.colMean j + l1.colMean j)) := by
    rw [hm2, hm1, vecAdd, if_pos (by simp), hmap]
  have hstep2 :
      vecAdd ((List.range K).map (fun j => l2.colMean j + l1.colMean j))
        l0.meanDim0 =
      some ((List.range K).map
        (fun j => l2.colMean j + l1.colMean j + l0.colMean j)) := by
    rw [hm0, vecAdd, if_pos (by simp), hmap]
  refine ⟨(List.range K).map
      (fun j => l2.colMean j + l1.colMean j + l0.colMean j), ?_, by simp, ?_⟩
  · simp [aggregate, hstep1, hstep2]
  · intro j hj
    rw [List.getD_eq_getElem _ _ (by simpa using hj)]
    simp

theorem convForward_shape {c0 c1 c2 K n0 n1 n2 : Nat} {m : ConvCXNModel}
    {x0 x1 n00 n12 : Tensor}
    (hm : convModelOk c0 c1 c2 K m)
    (hx0 : x0.rows = n0 ∧ x0.cols = c0) (hx1 : x1.rows = n1 ∧ x1.cols = c1)
    (hn00 : n00.rows = n0 ∧ n00.cols = n0)
    (hn12 : n12.rows = n2 ∧ n12.cols = n1) :
    ∃ v, m.forward x0 x1 n00 n12 = some v ∧ v.length = K := by
  obtain ⟨f0, f1, f2o, hloop, hf0r, hf0c, hf1r, hf1c, hf2, hne, _⟩ :=
    convLayerLoop_shape hn00 hn12 m.layers x0 x1 none hm.2.1
      hx0.1 hx0.2 hx1.1 hx1.2 (fun t ht => by cases ht)
  obtain ⟨f2, hf2o⟩ := Option.isSome_iff_exists.mp (hne hm.1)
  obtain ⟨hf2r, hf2c⟩ := hf2 f2 hf2o
  obtain ⟨l0, hl0, hl0r, hl0c⟩ :=
    linearApply_shape (l := m.lin_0) (x := f0)
      (by rw [hm.2.2.2.1, hf0c]) (by rw [hm.2.2.2.2.1, hm.2.2.1])
  obtain ⟨l1, hl1, hl1r, hl1c⟩ :=
    linearApply_shape (l := m.lin_1) (x := f1)
      (by rw [hm.2.2.2.2.2.2.1, hf1c])
      (by rw [hm.2.2.2.2.2.2.2.1, hm.2.2.2.2.2.1])
  obtain ⟨l2, hl2, hl2r, hl2c⟩ :=
    linearApply_shape (l := m.lin_2) (x := f2)
      (by rw [hm.2.2.2.2.2.2.2.2.2.1, hf2c])
      (by rw [hm.2.2.2.2.2.2.2.2.2.2, hm.2.2.2.2.2.2.2.2.1])
  obtain ⟨v, hv, hvlen, _⟩ :=
    aggregate_shape (K := K)
      (by rw [hl2c, hm.2.2.2.2.2.2.2.2.1])
      (by rw [hl1c, hm.2.2.2.2.2.1])
      (by rw [hl0c, hm.2.2.1])
  exact ⟨v, by simp [ConvCXNModel.forward, hloop, hl0, hl1, hf2o, hl2, hv],
    hvlen⟩

theorem convTrainSamples_counts {c0 c1 c2 K n0 n1 n2 : Nat}
    {update : ConvCXNModel → ConvCXNModel} {n00 n12 : Tensor}
    (hn00 : n00.rows = n0 ∧ n00.cols = n0)
    (hn12 : n12.rows = n2 ∧ n12.cols = n1)
    (hupd : ∀ q, convModelOk c0 c1 c2 K q → convModelOk c0 c1 c2 K (update q)) :
    ∀ (samples : List ConvSample) (m : ConvCXNModel) (st : EpochStats),
      convModelOk c0 c1 c2 K m →
      (∀ s ∈ samples, s.x_0.rows = n0 ∧ s.x_0.cols = c0 ∧
        s.x_1.rows = n1 ∧ s.x_1.cols = c1 ∧ s.label < K) →
      ∃ m' st',
        convTrainSamples update n00 n12 samples m st = some (m', st') ∧
        st'.num_samples = st.num_samples + samples.length ∧
        st'.optSteps = st.optSteps + samples.length ∧
        st'.epochLossLen = st.epochLossLen + samples.length ∧
        convModelOk c0 c1 c2 K m'
  | [], m, st, hm, _ => ⟨m, st, rfl, rfl, rfl, rfl, hm⟩
  | s :: rest, m, st, hm, hs => by
      obtain ⟨hs0r, hs0c, hs1r, hs1c, hslab⟩ := hs s (List.mem_cons_self s rest)
      obtain ⟨v, hv, hvlen⟩ :=
        @convForward_shape c0 c1 c2 K n0 n1 n2 m s.x_0.toFloat32
          s.x_1.toFloat32 n00.toFloat32 n12.toFloat32 hm
          ⟨by simp [hs0r], by simp [hs0c]⟩ ⟨by simp [hs1r], by simp [hs1c]⟩
          ⟨by simp [hn00.1], by simp [hn00.2]⟩
          ⟨by simp [hn12.1], by simp [hn12.2]⟩
      obtain ⟨m', st', hrec, h1, h2, h3, hm'⟩ :=
        convTrainSamples_counts hn00 hn12 hupd rest (update m)
          ⟨st.epochLossLen + 1, st.num_samples + 1,
            st.correct + (if argmaxIdx v = s.label then 1 else 0),
            st.optSteps + 1⟩
          (hupd m hm) (fun q hq => hs q (List.mem_cons_of_mem s hq))
      have h1' : st'.num_samples = st.num_samples + 1 + rest.length := h1
      have h2' : st'.optSteps = st.optSteps + 1 + rest.length := h2
      have h3' : st'.epochLossLen = st.epochLossLen + 1 + rest.length := h3
      refine ⟨m', st', ?_, ?_, ?_, ?_, hm'⟩
      · rw [convTrainSamples]
        simp [hv, crossEntropyOk, hvlen, hslab, hrec]
      · rw [List.length_cons]
        omega
      · rw [List.length_cons]
        omega
      · rw [List.length_cons]
        omega

theorem convTestSamples_noMutation {n00 n12 : Tensor} :
    ∀ (data : List ConvSample) (m : ConvCXNModel) (acc : Nat × Nat)
      (r : Nat × Nat) (m2 : ConvCXNModel),
      convTestSamples n00 n12 data m acc = some (r, m2) → m2 = m
  | [], m, acc, r, m2, h => by
      simp [convTestSamples] at h
      exact h.2.symm
  | s :: rest, m, acc, r, m2, h => by
      rw [convTestSamples, ConvCXNModel.forwardCall] at h
      rcases hy : m.forward s.x_0 s.x_1 n00 n12 with _ | y
      · rw [hy] at h
        simp at h
      · rw [hy] at h
        simp only [Option.bind_some] at h
        exact convTestSamples_noMutation rest m _ r m2 h

theorem convTestSamples_counts {c0 c1 c2 K n0 n1 n2 : Nat} {n00 n12 : Tensor}
    (hn00 : n00.rows = n0 ∧ n00.cols = n0)
    (hn12 : n12.rows = n2 ∧ n12.cols = n1) :
    ∀ (data : List ConvSample) (m : ConvCXNModel) (acc : Nat × Nat),
      convModelOk c0 c1 c2 K m →
      (∀ s ∈ data, s.x_0.rows = n0 ∧ s.x_0.cols = c0 ∧
        s.x_1.rows = n1 ∧ s.x_1.cols = c1) →
      ∃ c, convTestSamples n00 n12 data m acc =
        some ((c, acc.2 + data.length), m)
  | [], m, acc, _, _ => ⟨acc.1, rfl⟩
  | s :: rest, m, acc, hm, hs => by
      obtain ⟨hs0r, hs0c, hs1r, hs1c⟩ := hs s (List.mem_cons_self s rest)
      obtain ⟨v, hv, _⟩ :=
        @convForward_shape c0 c1 c2 K n0 n1 n2 m s.x_0 s.x_1 n00 n12 hm
          ⟨hs0r, hs0c⟩ ⟨hs1r, hs1c⟩ hn00 hn12
      obtain ⟨c, hc⟩ :=
        convTestSamples_counts hn00 hn12 rest m
          (acc.1 + (if argmaxIdx v = s.label then 1 else 0), acc.2 + 1)
          hm (fun q hq => hs q (List.mem_cons_of_mem s hq))
      refine ⟨c, ?_⟩
      have harith : acc.2 + 1 + rest.length = acc.2 + (s :: rest).length := by
        rw [List.length_cons]
        omega
      rw [convTestSamples, ConvCXNModel.forwardCall]
      simp [hv, hc, harith]

theorem convRun_counts {c0 c1 c2 K n0 n1 n2 : Nat}
    {update : ConvCXNModel → ConvCXNModel} {n00 n12 : Tensor}
    {trainData testData : List ConvSample} {test_interval : Nat}
    (hn00 : n00.rows = n0 ∧ n00.cols = n0)
    (hn12 : n12.rows = n2 ∧ n12.cols = n1)
    (hupd : ∀ q, convModelOk c0 c1 c2 K q → convModelOk c0 c1 c2 K (update q))
    (htrain : ∀ s ∈ trainData, s.x_0.rows = n0 ∧ s.x_0.cols = c0 ∧
      s.x_1.rows = n1 ∧ s.x_1.cols = c1 ∧ s.label < K)
    (htest : ∀ s ∈ testData, s.x_0.rows = n0 ∧ s.x_0.cols = c0 ∧
      s.x_1.rows = n1 ∧ s.x_1.cols = c1)
    (htne : trainData ≠ []) (hsne : testData ≠ []) :
    ∀ (k epoch_i : Nat) (m : ConvCXNModel) (st : RunStats),
      convModelOk c0 c1 c2 K m →
      ∃ m' st',
        convRun update n00 n12 trainData testData test_interval k epoch_i m st =
          some (m', st') ∧
        st'.trainLines = st.trainLines + k ∧
        st'.testLines = st.testLines + testEvalCount test_interval epoch_i k
  | 0, epoch_i, m, st, hm => ⟨m, st, rfl, rfl, by simp [testEvalCount]⟩
  | Nat.succ k, epoch_i, m, st, hm => by
      obtain ⟨m1, est, hepoch, hns, _, _, hm1⟩ :=
        convTrainSamples_counts hn00 hn12 hupd trainData m ⟨0, 0, 0, 0⟩ hm htrain
      have hns' : est.num_samples = trainData.length := by
        have h : est.num_samples = 0 + trainData.length := hns
        omega
      have hguard : divGuard est.num_samples = some () := by
        rw [divGuard, if_neg]
        rw [hns']
        simpa using htne
      by_cases hdiv : epoch_i % test_interval = 0
      · obtain ⟨c, hc⟩ :=
          convTestSamples_counts hn00 hn12 testData m1 (0, 0) hm1 htest
        simp only [Prod.mk_zero_zero, Nat.zero_add] at hc
        have hguard2 : divGuard testData.length = some () := by
          rw [divGuard, if_neg]
          simpa using hsne
        obtain ⟨m', st', hrec, h1, h2⟩ :=
          @convRun_counts c0 c1 c2 K n0 n1 n2 update n00 n12 trainData
            testData test_interval hn00 hn12 hupd htrain htest htne hsne k
            (epoch_i + 1) m1 ⟨st.trainLines + 1, st.testLines + 1⟩ hm1
        have h1' : st'.trainLines = st.trainLines + 1 + k := h1
        have h2' : st'.testLines =
            st.testLines + 1 + testEvalCount test_interval (epoch_i + 1) k := h2
        refine ⟨m', st', ?_, by omega, ?_⟩
        · rw [convRun]
          simp [hepoch, hguard, hdiv, hc, hguard2, hrec]
        · rw [testEvalCount, if_pos hdiv]
          omega
      · obtain ⟨m', st', hrec, h1, h2⟩ :=
          @convRun_counts c0 c1 c2 K n0 n1 n2 update n00 n12 trainData
            testData test_interval hn00 hn12 hupd htrain htest htne hsne k
            (epoch_i + 1) m1 ⟨st.trainLines + 1, st.testLines⟩ hm1
        have h1' : st'.trainLines = st.trainLines + 1 + k := h1
        have h2' : st'.testLines =
            st.testLines + testEvalCount test_interval (epoch_i + 1) k := h2
        refine ⟨m', st', ?_, by omega, ?_⟩
        · rw [convRun]
          simp [hepoch, hguard, hdiv, hrec]
        · rw [testEvalCount, if_neg hdiv]
          omega

theorem consecutiveMatch_replicate (n c : Nat) :
    consecutiveMatch (List.replicate n (c, c)) = true := by
  induction n with
  | zero => rfl
  | succ k ih =>
    cases k with
    | zero => rfl
    | succ j =>
      rw [List.replicate_succ, List.replicate_succ, consecutiveMatch]
      rw [List.replicate_succ] at ih
      simpa using ih

theorem sampleOk_spec {s : ConvSample} (h : ConvNb.sampleOk s = true) :
    s.x_0.rows = 6 ∧ s.x_0.cols = 4 ∧ s.x_1.rows = 8 ∧ s.x_1.cols = 5 ∧
      s.label < 2 := by
  simp only [ConvNb.sampleOk, Bool.and_eq_true, beq_iff_eq,
    decide_eq_true_eq] at h
  obtain ⟨⟨⟨⟨h0, h1⟩, h2⟩, h3⟩, h4⟩ := h
  refine ⟨?_, ?_, ?_, ?_, h4⟩
  · rw [h0]
    decide
  · rw [h1]
    decide
  · rw [h2]
    decide
  · rw [h3]
    decide

/-- C1: the spec says the read-out head is trained jointly with the
layer stack, i.e. model.parameters() — the set handed to the Adam
optimizer — includes the learnable parameters of every layer as well as
those of the linear read-out head(s).  In the code of all three models,
self.layers is a plain Python list rather than an nn.ModuleList, so the
layer modules are never registered: model.parameters() contains exactly
the read-out parameters and none of the layer parameters.  Evaluated
here at the models as constructed in the notebooks (n_layers = 2). -/
theorem c1_optimizer_misses_layer_params :
    (hsnPy 2).params = [0, 1] ∧
    (hsnLayerPy 0).params ≠ [] ∧
    (∀ p ∈ (hsnLayerPy 0).params, p ∉ (hsnPy 2).params) ∧
    (∀ p ∈ (hsnLayerPy 1).params, p ∉ (hsnPy 2).params) ∧
    (templatePy 2).params = [0, 1] ∧
    (∀ p ∈ (templateLayerPy 0).params, p ∉ (templatePy 2).params) ∧
    (convPy 2).params = [0, 1, 2, 3, 4, 5] ∧
    (∀ p ∈ (convLayerPy 0).params, p ∉ (convPy 2).params) := by
  decide

/-- C2: for all valid channel specifications and every n_layers at
least 1, constructing HSN, TemplateNN or ConvCXN succeeds if and only
if consecutive layer channel widths match.  The constructors repeat one
layer configuration, so every consecutive pair of widths matches and
construction always succeeds: both sides of the biconditional hold, and
the mismatch branch of the claim (raising ConfigurationError before any
tensor operation) is vacuous because no mismatch is expressible. -/
theorem c2_construct_iff_consecutive_widths_match :
    ∀ (channels channels_face channels_edge in_ch_0 in_ch_1 in_ch_2
        numClasses n_layers : Nat)
      (wv wi wo w0 w1 w2 clw2 : Nat → Nat → Nat → ℚ)
      (lw : Nat → Nat → ℚ) (lb : Nat → ℚ) (clb : Nat → Nat → ℚ),
      1 ≤ n_layers →
      (((hsnInit channels n_layers wv lw lb).isSome = true ↔
          consecutiveMatch (hsnLayerWidthPairs channels n_layers) = true) ∧
        consecutiveMatch (hsnLayerWidthPairs channels n_layers) = true) ∧
      (((templateInit channels_face channels_edge n_layers wi wo lw lb).isSome
            = true ↔
          consecutiveMatch
            (templateLayerWidthPairs channels_face n_layers) = true) ∧
        consecutiveMatch (templateLayerWidthPairs channels_face n_layers)
          = true) ∧
      (((convInit in_ch_0 in_ch_1 in_ch_2 numClasses n_layers w0 w1 w2
            clw2 clb).isSome = true ↔
          consecutiveMatch (convWidthPairs0 in_ch_0 n_layers) = true ∧
            consecutiveMatch (convWidthPairs1 in_ch_1 n_layers) = true) ∧
        consecutiveMatch (convWidthPairs0 in_ch_0 n_layers) = true ∧
        consecutiveMatch (convWidthPairs1 in_ch_1 n_layers) = true) := by
  intro channels channels_face channels_edge in_ch_0 in_ch_1 in_ch_2
    numClasses n_layers wv wi wo w0 w1 w2 clw2 lw lb clb _
  have hh := consecutiveMatch_replicate n_layers channels
  have ht := consecutiveMatch_replicate n_layers channels_face
  have hc0 := consecutiveMatch_replicate n_layers in_ch_0
  have hc1 := consecutiveMatch_replicate n_layers in_ch_1
  refine ⟨⟨?_, hh⟩, ⟨?_, ht⟩, ⟨?_, hc0, hc1⟩⟩
  · simp [hsnInit, hsnLayerWidthPairs, hh]
  · simp [templateInit, templateLayerWidthPairs, ht]
  · simp [convInit, convWidthPairs0, convWidthPairs1, hc0, hc1]

/-- Witness for C2 at the notebooks' concrete configurations
(channels 2, widths 4/5/5, 2 classes, 2 layers). -/
theorem c2_witness :
    ((hsnInit 2 2 (fun _ _ _ => 0) (fun _ _ => 0) (fun _ => 0)).isSome = true ↔
      consecutiveMatch (hsnLayerWidthPairs 2 2) = true) ∧
    consecutiveMatch (hsnLayerWidthPairs 2 2) = true :=
  ((c2_construct_iff_consecutive_widths_match 2 2 4 4 5 5 2 2
    (fun _ _ _ => 0) (fun _ _ _ => 0) (fun _ _ _ => 0) (fun _ _ _ => 0)
    (fun _ _ _ => 0) (fun _ _ _ => 0) (fun _ _ _ => 0)
    (fun _ _ => 0) (fun _ => 0) (fun _ _ => 0) (by decide)).1)

/-- C9: forward is deterministic — for fixed parameters, input signals
and neighborhood tensors, two consecutive calls of the model's forward
function return identical outputs (and leave the module state equal),
for the HSN model and for the ConvCXN model. -/
theorem c9_forward_deterministic :
    (∀ (m : HSNModel) (x_0 incidence_1 adjacency_0 : Tensor),
      ((m.forwardCall x_0 incidence_1 adjacency_0).2.forwardCall
          x_0 incidence_1 adjacency_0).1 =
        (m.forwardCall x_0 incidence_1 adjacency_0).1 ∧
      ((m.forwardCall x_0 incidence_1 adjacency_0).2.forwardCall
          x_0 incidence_1 adjacency_0).2 =
        (m.forwardCall x_0 incidence_1 adjacency_0).2) ∧
    (∀ (m : ConvCXNModel) (x_0 x_1 n00 n12 : Tensor),
      ((m.forwardCall x_0 x_1 n00 n12).2.forwardCall x_0 x_1 n00 n12).1 =
        (m.forwardCall x_0 x_1 n00 n12).1 ∧
      ((m.forwardCall x_0 x_1 n00 n12).2.forwardCall x_0 x_1 n00 n12).2 =
        (m.forwardCall x_0 x_1 n00 n12).2) :=
  ⟨fun _ _ _ _ => ⟨rfl, rfl⟩, fun _ _ _ _ _ => ⟨rfl, rfl⟩⟩

/-- C4: in the HSN scenario the domain built from the edge list
[[1,2],[1,3]] has exactly 3 nodes and 2 edges, its rank-1 incidence
matrix has shape (3,2) and its rank-0 adjacency matrix has shape (3,3),
and the 2-layer stack with channel width 2 trained for 5 epochs on the
3 labeled nodes completes without error, producing a (3,1) prediction
tensor in every epoch — for every parameter initialization and every
shape-preserving optimizer update. -/
theorem c4_hsn_scenario :
    HsnNb.nodes.length = 3 ∧ HsnNb.edges.length = 2 ∧
    HsnNb.incidence_1.rows = 3 ∧ HsnNb.incidence_1.cols = 2 ∧
    HsnNb.adjacency_0.rows = 3 ∧ HsnNb.adjacency_0.cols = 3 ∧
    ∀ (update : HSNModel → HSNModel) (m : HSNModel),
      hsnModelOk 2 2 m →
      (∀ q, hsnModelOk 2 2 q → hsnModelOk 2 2 (update q)) →
      ∃ outs final,
        hsnTrainLoop update HsnNb.x_nodes HsnNb.incidence_1
          HsnNb.adjacency_0 HsnNb.nodes_gt_labels 5 m = some (outs, final) ∧
        outs.length = 5 ∧ ∀ t ∈ outs, t.rows = 3 ∧ t.cols = 1 := by
  refine ⟨by decide, by decide, by decide, by decide, by decide, by decide, ?_⟩
  intro update m hm hupd
  exact @hsnTrainLoop_shape 3 2 2 2 update HsnNb.x_nodes HsnNb.incidence_1
    HsnNb.adjacency_0 HsnNb.nodes_gt_labels hupd
    ⟨by decide, by decide⟩ ⟨by decide, by decide⟩
    ⟨by decide, by decide⟩ ⟨by decide, by decide⟩ 5 m hm

/-- Witness for C4: the training loop evaluated at the all-zero model
with the identity optimizer update. -/
theorem c4_witness :
    ∃ outs final,
      hsnTrainLoop id HsnNb.x_nodes HsnNb.incidence_1 HsnNb.adjacency_0
        HsnNb.nodes_gt_labels 5 hsnZeroModel = some (outs, final) ∧
      outs.length = 5 ∧ ∀ t ∈ outs, t.rows = 3 ∧ t.cols = 1 :=
  (c4_hsn_scenario.2.2.2.2.2.2 id hsnZeroModel (by decide) (fun _ h => h))

/-- C5: for per-rank logits of shapes (n0,2), (n1,2), (n2,2) with at
least one row each, the aggregation performed as the last step of
ConvCXN.forward equals the element-wise sum of the three per-rank
column means and has shape (2,). -/
theorem c5_aggregate_is_sum_of_means :
    ∀ (l0 l1 l2 : Tensor),
      l0.cols = 2 → l1.cols = 2 → l2.cols = 2 →
      1 ≤ l0.rows → 1 ≤ l1.rows → 1 ≤ l2.rows →
      ∃ v, aggregate l2 l1 l0 = some v ∧ v.length = 2 ∧
        ∀ j, j < 2 →
          v.getD j 0 = l0.colMean j + l1.colMean j + l2.colMean j := by
  intro l0 l1 l2 h0 h1 h2 _ _ _
  obtain ⟨v, hv, hlen, hval⟩ := aggregate_shape (K := 2) h2 h1 h0
  refine ⟨v, hv, hlen, ?_⟩
  intro j hj
  rw [hval j hj]
  ring

/-- Witness for C5 at concrete one-row logit tensors. -/
theorem c5_witness :
    ∃ v, aggregate (torchTensor [[5, 6]]) (torchTensor [[3, 4]])
        (torchTensor [[1, 2]]) = some v ∧ v.length = 2 ∧
      ∀ j, j < 2 →
        v.getD j 0 = (torchTensor [[1, 2]]).colMean j +
          (torchTensor [[3, 4]]).colMean j +
          (torchTensor [[5, 6]]).colMean j :=
  c5_aggregate_is_sum_of_means (torchTensor [[1, 2]]) (torchTensor [[3, 4]])
    (torchTensor [[5, 6]]) (by decide) (by decide) (by decide)
    (by decide) (by decide) (by decide)

/-- C7: during one training epoch of the ConvCXN loop, the loss
accumulator, the sample counter and the optimizer-step count are each
advanced exactly once per training sample: after the epoch they all
equal their initial value plus the number of training samples. -/
theorem c7_epoch_counts_every_sample :
    ∀ (update : ConvCXNModel → ConvCXNModel) (samples : List ConvSample)
      (m : ConvCXNModel) (st : EpochStats),
      convModelOk 4 5 5 2 m →
      (∀ q, convModelOk 4 5 5 2 q → convModelOk 4 5 5 2 (update q)) →
      (∀ s ∈ samples, ConvNb.sampleOk s = true) →
      ∃ m' st',
        convTrainSamples update ConvNb.adjacency_0 ConvNb.incidence_2_t
          samples m st = some (m', st') ∧
        st'.num_samples = st.num_samples + samples.length ∧
        st'.optSteps = st.optSteps + samples.length ∧
        st'.epochLossLen = st.epochLossLen + samples.length := by
  intro update samples m st hm hupd hs
  obtain ⟨m', st', hrun, h1, h2, h3, _⟩ :=
    @convTrainSamples_counts 4 5 5 2 6 8 1 update ConvNb.adjacency_0
      ConvNb.incidence_2_t ⟨by decide, by decide⟩ ⟨by decide, by decide⟩
      hupd samples m st hm (fun q hq => sampleOk_spec (hs q hq))
  exact ⟨m', st', hrun, h1, h2, h3⟩

/-- Witness for C7: one epoch over two all-zero samples starting from
the all-zero model. -/
theorem c7_witness :
    ∃ m' st',
      convTrainSamples id ConvNb.adjacency_0 ConvNb.incidence_2_t
        [convZeroSample, convZeroSample] convZeroModel ⟨0, 0, 0, 0⟩ =
        some (m', st') ∧
      st'.num_samples = 0 + 2 ∧ st'.optSteps = 0 + 2 ∧
      st'.epochLossLen = 0 + 2 :=
  c7_epoch_counts_every_sample id [convZeroSample, convZeroSample]
    convZeroModel ⟨0, 0, 0, 0⟩ (by decide) (fun _ h => h) (by decide)

/-- C8: the evaluation phase of the ConvCXN training loop never mutates
the model parameters: whenever a test pass over held-out samples
completes, the module state it returns equals the module state it
started from. -/
theorem c8_evaluation_never_mutates_params :
    ∀ (n00 n12 : Tensor) (data : List ConvSample) (m : ConvCXNModel)
      (acc r : Nat × Nat) (m2 : ConvCXNModel),
      convTestSamples n00 n12 data m acc = some (r, m2) → m2 = m :=
  fun _ _ data m acc r m2 h =>
    convTestSamples_noMutation data m acc r m2 h

/-- Witness for C8: a completed test pass with the all-zero model
returns that model unchanged. -/
theorem c8_witness : convZeroModel = convZeroModel :=
  c8_evaluation_never_mutates_params ConvNb.adjacency_0 ConvNb.incidence_2_t
    [] convZeroModel (0, 0) ((0, 0), convZeroModel).1 convZeroModel rfl

theorem convLayerLoop_acc_some {n00 n12 : Tensor} :
    ∀ (layers : List ConvCXNLayerParams) (x_0 x_1 t f0 f1 : Tensor)
      (f2o : Option Tensor),
      convLayerLoop layers x_0 x_1 (some t) n00 n12 = some (f0, f1, f2o) →
      f2o.isSome = true
  | [], x0, x1, t, f0, f1, f2o, h => by
      simp only [convLayerLoop, Option.some_inj, Prod.mk.injEq] at h
      rw [← h.2.2]
      rfl
  | p :: rest, x0, x1, t, f0, f1, f2o, h => by
      rw [convLayerLoop] at h
      rcases hstep : convCXNLayerForward p x0 x1 n00 n12 with _ | ⟨y0, y1, y2⟩
      · rw [hstep] at h
        simp at h
      · rw [hstep] at h
        simp only [Option.bind_some] at h
        exact convLayerLoop_acc_some rest y0 y1 y2 f0 f1 f2o h

/-- C3 counterexample: the cell complex of convcxn_train.ipynb does not
have 6 edges and its incidence-transpose tensor does not have shape
(1,6) — the listed face contributes the boundary edges (2,3) and (1,4),
as the notebook's own recorded output (8 edges) documents. -/
theorem c3_counterexample : ConvNb.edges.length ≠ 6 ∧
    ConvNb.incidence_2_t.cols ≠ 6 := by
  decide

/-- C3 (amended): the domain built from 6 nodes, 6 listed edges and 1
face has 8 edges (the face's boundary completes two missing edges); the
incidence-transpose tensor has shape (1,8) (faces by edges) and the
adjacency tensor has shape (6,6); training for 3 epochs over 100
synthetic samples with batch size 1 prints exactly one loss/accuracy
line per epoch (3 lines) and one test-accuracy line every 2 epochs
(1 line for 3 epochs). -/
theorem c3_amended_domain_and_printing :
    ConvNb.nodes.length = 6 ∧ ConvNb.edges.length = 8 ∧
    ConvNb.incidence_2_t.rows = 1 ∧ ConvNb.incidence_2_t.cols = 8 ∧
    ConvNb.adjacency_0.rows = 6 ∧ ConvNb.adjacency_0.cols = 6 ∧
    testEvalCount 2 1 3 = 1 ∧
    ∀ (update : ConvCXNModel → ConvCXNModel) (m : ConvCXNModel)
      (trainData testData : List ConvSample),
      convModelOk 4 5 5 2 m →
      (∀ q, convModelOk 4 5 5 2 q → convModelOk 4 5 5 2 (update q)) →
      (∀ s ∈ trainData, ConvNb.sampleOk s = true) →
      (∀ s ∈ testData, ConvNb.sampleOk s = true) →
      trainData.length = 100 → testData.length = 10 →
      ∃ m' st',
        convRun update ConvNb.adjacency_0 ConvNb.incidence_2_t trainData
          testData 2 3 1 m ⟨0, 0⟩ = some (m', st') ∧
        st'.trainLines = 3 ∧ st'.testLines = 1 := by
  refine ⟨by decide, by decide, by decide, by decide, by decide, by decide,
    by decide, ?_⟩
  intro update m trainData testData hm hupd htr hte hlen100 hlen10
  have htne : trainData ≠ [] := by
    intro hnil
    rw [hnil] at hlen100
    exact absurd hlen100 (by decide)
  have hsne : testData ≠ [] := by
    intro hnil
    rw [hnil] at hlen10
    exact absurd hlen10 (by decide)
  obtain ⟨m', st', hrun, h1, h2⟩ :=
    @convRun_counts 4 5 5 2 6 8 1 update ConvNb.adjacency_0
      ConvNb.incidence_2_t trainData testData 2
      ⟨by decide, by decide⟩ ⟨by decide, by decide⟩ hupd
      (fun q hq => sampleOk_spec (htr q hq))
      (fun q hq =>
        ⟨(sampleOk_spec (hte q hq)).1, (sampleOk_spec (hte q hq)).2.1,
         (sampleOk_spec (hte q hq)).2.2.1, (sampleOk_spec (hte q hq)).2.2.2.1⟩)
      htne hsne 3 1 m ⟨0, 0⟩ hm
  have h1' : st'.trainLines = 0 + 3 := h1
  have h2' : st'.testLines = 0 + testEvalCount 2 1 3 := h2
  have hcount : testEvalCount 2 1 3 = 1 := by decide
  exact ⟨m', st', hrun, by omega, by rw [hcount] at h2'; omega⟩

/-- Witness for C3 (amended) at the all-zero model, the identity
optimizer update and 100 train / 10 test all-zero samples. -/
theorem c3_witness :
    ∃ m' st',
      convRun id ConvNb.adjacency_0 ConvNb.incidence_2_t
        (List.replicate 100 convZeroSample) (List.replicate 10 convZeroSample)
        2 3 1 convZeroModel ⟨0, 0⟩ = some (m', st') ∧
      st'.trainLines = 3 ∧ st'.testLines = 1 :=
  c3_amended_domain_and_printing.2.2.2.2.2.2.2 id convZeroModel
    (List.replicate 100 convZeroSample) (List.replicate 10 convZeroSample)
    (by decide) (fun _ h => h) (by decide) (by decide) (by decide) (by decide)

/-- C6 counterexample: the HSN notebook's incidence conversion keeps
the float64 dtype of the scipy matrix while the node signal it is
multiplied against is float32, so the converted tensor's dtype does not
match the signal's. -/
theorem c6_counterexample : HsnNb.incidence_1.dtype = DType.float64 ∧
    HsnNb.x_nodes.dtype = DType.float32 ∧
    ¬ HsnNb.incidence_1.dtype = HsnNb.x_nodes.dtype := by
  decide

/-- C6 (amended): every neighborhood conversion in the notebooks yields
a tensor of the requested shape — (cells at destination rank) by (cells
at source rank), or its transpose as requested — and a floating-point
dtype; the ConvCXN conversions cast to float32, matching that
notebook's float32 signals, but the HSN and Template conversions retain
float64, which differs from their float32 signals. -/
theorem c6_amended_adapter_contract :
    (HsnNb.incidence_1.rows = HsnNb.nodes.length ∧
     HsnNb.incidence_1.cols = HsnNb.edges.length) ∧
    (HsnNb.adjacency_0.rows = HsnNb.nodes.length ∧
     HsnNb.adjacency_0.cols = HsnNb.nodes.length) ∧
    (TemplateNb.incidence_2_torch.rows =
        (scEdges TemplateNb.simplices).length ∧
     TemplateNb.incidence_2_torch.cols =
        (scFaces TemplateNb.simplices).length) ∧
    (ConvNb.incidence_2_t.rows = ConvNb.face_set.length ∧
     ConvNb.incidence_2_t.cols = ConvNb.edges.length) ∧
    (ConvNb.adjacency_0.rows = ConvNb.nodes.length ∧
     ConvNb.adjacency_0.cols = ConvNb.nodes.length) ∧
    (ConvNb.incidence_2_t.dtype = DType.float32 ∧
     ConvNb.adjacency_0.dtype = DType.float32) ∧
    (∀ mat : List (List ℚ), (torchTensor mat).dtype = DType.float32) ∧
    (HsnNb.incidence_1.dtype = DType.float64 ∧
     HsnNb.adjacency_0.dtype = DType.float64 ∧
     HsnNb.x_nodes.dtype = DType.float32 ∧
     TemplateNb.incidence_2_torch.dtype = DType.float64 ∧
     TemplateNb.x_2.dtype = DType.float32) :=
  ⟨by decide, by decide, by decide, by decide, by decide, by decide,
   fun _ => rfl, by decide⟩

/-- C10: ConvCXN.forward is only defined when the layer stack is
nonempty.  With n_layers = 0 the loop body never runs, the local
variable x_2 is never assigned, and every forward call fails; with a
nonempty stack the loop assigns x_2 before its use, and with the
notebook's channel widths and neighborhoods the forward call
succeeds. -/
theorem c10_forward_requires_nonempty_stack :
    (∀ (m : ConvCXNModel) (x_0 x_1 n00 n12 : Tensor),
      m.layers = [] → m.forward x_0 x_1 n00 n12 = none) ∧
    (∀ (layers : List ConvCXNLayerParams) (x_0 x_1 n00 n12 f0 f1 : Tensor)
      (f2o : Option Tensor),
      layers ≠ [] →
      convLayerLoop layers x_0 x_1 none n00 n12 = some (f0, f1, f2o) →
      f2o.isSome = true) ∧
    (∀ (m : ConvCXNModel) (x_0 x_1 : Tensor),
      convModelOk 4 5 5 2 m →
      x_0.rows = 6 → x_0.cols = 4 → x_1.rows = 8 → x_1.cols = 5 →
      (m.forward x_0 x_1 ConvNb.adjacency_0
        ConvNb.incidence_2_t).isSome = true) := by
  refine ⟨?_, ?_, ?_⟩
  · intro m x0 x1 n00 n12 hm
    rw [ConvCXNModel.forward, hm, convLayerLoop]
    rcases h0 : m.lin_0.apply x0 with _ | l0 <;>
      rcases h1 : m.lin_1.apply x1 with _ | l1 <;> simp [h0, h1]
  · intro layers x0 x1 n00 n12 f0 f1 f2o hne h
    rcases layers with _ | ⟨p, rest⟩
    · exact absurd rfl hne
    · rw [convLayerLoop] at h
      rcases hstep : convCXNLayerForward p x0 x1 n00 n12 with _ | ⟨y0, y1, y2⟩
      · rw [hstep] at h
        simp at h
      · rw [hstep] at h
        simp only [Option.bind_some] at h
        exact convLayerLoop_acc_some rest y0 y1 y2 f0 f1 f2o h
  · intro m x0 x1 hm h0r h0c h1r h1c
    obtain ⟨v, hv, _⟩ :=
      @convForward_shape 4 5 5 2 6 8 1 m x0 x1 ConvNb.adjacency_0
        ConvNb.incidence_2_t hm ⟨h0r, h0c⟩ ⟨h1r, h1c⟩
        ⟨by decide, by decide⟩ ⟨by decide, by decide⟩
    rw [hv]
    rfl

/-- Witness for C10: with n_layers = 0 the concrete forward call fails;
with the two-layer all-zero model the loop assigns x_2 and the forward
call succeeds. -/
theorem c10_witness :
    convZeroLayersModel.forward convZeroSample.x_0 convZeroSample.x_1
      ConvNb.adjacency_0 ConvNb.incidence_2_t = none ∧
    ((convLayerLoop convZeroModel.layers convZeroSample.x_0
        convZeroSample.x_1 none ConvNb.adjacency_0
        ConvNb.incidence_2_t).getD
      (convZeroSample.x_0, convZeroSample.x_1, none)).2.2.isSome = true ∧
    (convZeroModel.forward convZeroSample.x_0 convZeroSample.x_1
      ConvNb.adjacency_0 ConvNb.incidence_2_t).isSome = true :=
  ⟨c10_forward_requires_nonempty_stack.1 convZeroLayersModel
      convZeroSample.x_0 convZeroSample.x_1 ConvNb.adjacency_0
      ConvNb.incidence_2_t rfl,
   c10_forward_requires_nonempty_stack.2.1 convZeroModel.layers
      convZeroSample.x_0 convZeroSample.x_1 ConvNb.adjacency_0
      ConvNb.incidence_2_t _ _ _ (by decide) rfl,
   c10_forward_requires_nonempty_stack.2.2 convZeroModel
      convZeroSample.x_0 convZeroSample.x_1 (by decide) (by decide)
      (by decide) (by decide) (by decide)⟩

end TopoModelX
